import Mathlib

/-!
Shallow embedding of the ESP32 SPI host transport driver
(`src/host/linux/host_driver/esp32/spi/esp_spi.c`): the frame codec
(`write_packet` / `process_rx_buf`), the transaction worker
(`esp_spi_work`), the interrupt hand-off (`spi_interrupt_handler`), and
the lifecycle (`spi_init` / `spi_exit` / `esp_init_interface_layer`).
Machine integers are modelled as `Nat`/`Int` with explicit reductions
modulo `2^16` / `2^32` where the C code truncates.
-/

set_option autoImplicit false

/-- Modelled from the spec: `SPI_BUF_SIZE`, the fixed maximum frame size.
The defining header (`esp_spi.h`) is not under `src/`; the spec fixes it as
a platform constant shared by both directions, and the driver's
representative value is 2048 bytes. -/
def SPI_BUF_SIZE : Nat := 2048

/-- Modelled from the spec: `sizeof(struct esp_payload_header)`.  The header
struct is declared outside `src/`; the spec fixes a 4-byte header carrying
two little-endian `u16` fields, `offset` at byte 0 and `len` at byte 2. -/
def headerSize : Nat := 4

/-- A buffer (the byte contents of a `struct sk_buff`). -/
abbrev Buf := List Nat

/-- Little-endian decoding of two bytes into a `u16` (`le16_to_cpu` applied
to two consecutive memory bytes). -/
def le16 (lo hi : Nat) : Nat := lo % 256 + 256 * (hi % 256)

/-- `skb_trim(skb, len)`: trims the buffer down to `len` bytes when it is
longer; a trim to a length at least the current one leaves it unchanged. -/
def skb_trim (skb : Buf) (len : Nat) : Buf := skb.take len

/-- Outcome of `process_rx_buf`: the returned status, the receive queue
afterwards, and whether `esp_process_new_packet_intr` was invoked. -/
structure RxResult where
  ret : Int
  rx_q : List Buf
  notified : Bool
deriving DecidableEq, Repr

/-- `process_rx_buf` from `esp_spi.c`: rejects a null skb; reads `offset`
and `len` from the payload header; rejects (`-EINVAL`) when `offset` differs
from the header size, when `len` is zero, or when `len + headerSize` —
computed in the `u16` variable `len`, hence reduced modulo `2^16` — exceeds
`SPI_BUF_SIZE`; otherwise trims the skb to that total, appends it to the
receive queue and notifies the adapter. -/
def process_rx_buf (rx_q : List Buf) (skb : Option Buf) : RxResult :=
  match skb with
  | none => ⟨-22, rx_q, false⟩
  | some data =>
    let offset := le16 (data.getD 0 0) (data.getD 1 0)
    if offset ≠ headerSize then ⟨-22, rx_q, false⟩
    else
      let len := le16 (data.getD 2 0) (data.getD 3 0)
      if len = 0 then ⟨-22, rx_q, false⟩
      else
        let len2 := (len + headerSize) % 65536
        if len2 > SPI_BUF_SIZE then ⟨-22, rx_q, false⟩
        else ⟨0, rx_q ++ [skb_trim data len2], true⟩

/-- Allocation outcomes visible to `write_packet`: whether `esp_alloc_skb`
returns a buffer and whether `skb_put` returns a non-null data pointer. -/
structure WpEnv where
  allocOk : Bool
  putOk : Bool
deriving DecidableEq, Repr

/-- Outcome of `write_packet`: the returned status and the transmit queue
afterwards. -/
structure WpResult where
  ret : Int
  tx_q : List Buf
deriving DecidableEq, Repr

/-- `write_packet` from `esp_spi.c`.  `validArgs` models the pointer checks
`!adapter || !adapter->if_context || !buf`; `buf` is the caller's memory,
a byte for every address, and `size` the payload length.  The size checks
(`!size || size > SPI_BUF_SIZE`) precede the padding `size += 4 - (size & 3)`
(a `u32`, hence the reduction modulo `2^32`); `memcpy(tx_buf, buf, size)`
then copies the *padded* number of bytes from the caller's memory into the
frame that is enqueued on the transmit queue. -/
def write_packet (validArgs : Bool) (buf : Nat → Nat) (size : Nat)
    (env : WpEnv) (tx_q : List Buf) : WpResult :=
  if ¬validArgs ∨ size = 0 ∨ size > SPI_BUF_SIZE then ⟨-22, tx_q⟩
  else
    let padded := (size + (4 - size % 4)) % 4294967296
    if ¬env.allocOk then ⟨-12, tx_q⟩
    else if ¬env.putOk then ⟨-12, tx_q⟩
    else ⟨0, tx_q ++ [(List.range padded).map buf]⟩

/-- A kernel fault reachable by the embedded code paths. -/
inductive Fault where
  | nullDeref
deriving DecidableEq, Repr

/-- Environment of one `esp_spi_work` activation: whether
`esp_alloc_skb(SPI_BUF_SIZE)` succeeds, the status `spi_sync_transfer`
returns, and the bytes the bus transfer writes into the receive buffer. -/
structure WorkEnv where
  allocOk : Bool
  exchRet : Int
  exchData : List Nat
deriving DecidableEq, Repr

/-- The two queues owned by `spi_context`. -/
structure SpiQueues where
  tx_q : List Buf
  rx_q : List Buf
deriving DecidableEq, Repr

/-- Trace of one `esp_spi_work` activation: the exchanges performed (the
transmit buffer handed to the bus and the receive buffer's contents at the
moment of the call), whether the failure `printk` ran, the buffer handed to
`process_rx_buf`, whether the receive / transmit buffers were freed, and
whether the adapter was notified. -/
structure WorkTrace where
  exchanges : List (Option Buf × Buf)
  loggedFailure : Bool
  decodedInput : Option Buf
  rxFreed : Bool
  txFreed : Bool
  notified : Bool
deriving DecidableEq, Repr

/-- `esp_spi_work` from `esp_spi.c`: dequeue at most one transmit skb;
allocate the fixed-size receive skb — `skb_put(rx_skb, SPI_BUF_SIZE)` is
called with no null check, so a failed allocation is a null dereference —
zero-fill it, run one `spi_sync_transfer` (the bus overwrites the zeroed
buffer with `exchData`), log non-fatally on a transfer error, hand the
receive buffer to `process_rx_buf` (freeing it if rejected), and free the
dequeued transmit skb if there was one. -/
def esp_spi_work (env : WorkEnv) (s : SpiQueues) : Except Fault (WorkTrace × SpiQueues) :=
  let tx_skb := s.tx_q.head?
  if ¬env.allocOk then .error .nullDeref
  else
    let rx0 : Buf := List.replicate SPI_BUF_SIZE 0
    let rxAfter : Buf := (env.exchData ++ rx0).take SPI_BUF_SIZE
    let res := process_rx_buf s.rx_q (some rxAfter)
    .ok (⟨[(tx_skb, rx0)], env.exchRet != 0, some rxAfter, res.ret != 0,
          tx_skb.isSome, res.notified⟩,
         ⟨s.tx_q.tail, res.rx_q⟩)

/-- Modelled from the spec: the kernel work queue backing the
interrupt-to-scheduler hand-off is external to this repository; the spec
describes it as a bounded single-slot pending-activation signal, so
`queue_work` marks the one work item pending and queueing an
already-pending item changes nothing. -/
def queue_work (_pending : Bool) : Bool := true

/-- `spi_interrupt_handler` from `esp_spi.c`: if `spi_context.spi_workqueue`
is non-null, queue the work item; nothing else.  The second component
counts the bus operations the handler performs — its body contains none. -/
def spi_interrupt_handler (wqAlive : Bool) (pending : Bool) : Bool × Nat :=
  if wqAlive then (queue_work pending, 0) else (pending, 0)

/-- `n` consecutive invocations of `spi_interrupt_handler` on the pending
bit, accumulating the bus operations performed. -/
def handlerIter (wqAlive : Bool) : Nat → Bool → Bool × Nat
  | 0, p => (p, 0)
  | n + 1, p =>
    let r := spi_interrupt_handler wqAlive p
    let rest := handlerIter wqAlive n r.1
    (rest.1, r.2 + rest.2)

/-- Number of pending scheduler activations represented by the single
work-queue slot. -/
def pendingCount (p : Bool) : Nat := if p then 1 else 0

/-- The adapter as `spi_exit` sees it: whether `adapter->hcidev` is set. -/
structure Adapter where
  hcidev : Bool
deriving DecidableEq, Repr

/-- The fields of `struct esp_spi_context` the lifecycle code reads or
writes: the work-queue pointer, the two skb queues, the SPI device pointer
and the adapter back-pointer (null when the context is zeroed). -/
structure SpiContext where
  spi_workqueue : Bool
  tx_q : List Buf
  rx_q : List Buf
  esp_spi_dev : Bool
  adapter : Option Adapter
deriving DecidableEq, Repr

/-- The context after `memset(&spi_context, 0, sizeof(spi_context))`. -/
def zeroedContext : SpiContext := ⟨false, [], [], false, none⟩

/-- Platform-side resources held outside `spi_context`: the handshake GPIO
and the IRQ registration. -/
structure Platform where
  gpioHeld : Bool
  irqHeld : Bool
deriving DecidableEq, Repr

/-- Trace of one `spi_exit` call: which cleanups ran and which queued
buffers were freed. -/
structure ExitTrace where
  wqDestroyed : Bool
  serialCleaned : Bool
  cardRemoved : Bool
  btDeinited : Bool
  gpioFreed : Bool
  devUnregistered : Bool
  freedBuffers : List Buf
deriving DecidableEq, Repr

/-- `spi_exit` from `esp_spi.c`: destroy the work queue if present, run the
serial cleanup and `esp_remove_card`, then read `spi_context.adapter->hcidev`
— a null dereference when the context is zeroed — deinit BT when `hcidev`
is set, free the handshake GPIO unconditionally, unregister the SPI device
if present, and `memset` the context to zero.  It contains no `free_irq`
and frees no skb still sitting in either queue. -/
def spi_exit (ctx : SpiContext) (p : Platform) :
    Except Fault (ExitTrace × SpiContext × Platform) :=
  match ctx.adapter with
  | none => .error .nullDeref
  | some a =>
    .ok (⟨ctx.spi_workqueue, true, true, a.hcidev, true, ctx.esp_spi_dev, []⟩,
         zeroedContext, ⟨false, p.irqHeld⟩)

/-- Results of the external steps `spi_init` performs, in program order:
`create_workqueue`, `spi_busnum_to_master`, `spi_new_device`, `spi_setup`,
`gpio_request`, `gpio_direction_input`, `request_irq`, `esp_serial_init`,
`esp_add_card`, `esp_init_bt`. -/
structure InitEnv where
  createWqOk : Bool
  masterOk : Bool
  newDevOk : Bool
  setupRet : Int
  gpioReqRet : Int
  gpioDirRet : Int
  irqRet : Int
  serialRet : Int
  addCardRet : Int
  btRet : Int
deriving DecidableEq, Repr

/-- `spi_init` from `esp_spi.c`: acquire each resource in order and, on any
step's failure, call `spi_exit` and return that step's error
(`-EFAULT` for the work queue, `-ENODEV` for the bus master / device, the
step's own status otherwise).  The queue heads are initialised after the
work queue; the GPIO is held once `gpio_request` succeeds and the IRQ once
`request_irq` succeeds. -/
def spi_init (env : InitEnv) (ctx0 : SpiContext) (p0 : Platform) :
    Except Fault (Int × SpiContext × Platform) := do
  let ctx := { ctx0 with spi_workqueue := env.createWqOk }
  if ¬env.createWqOk then
    let (_, c, p) ← spi_exit ctx p0
    return (-14, c, p)
  let ctx := { ctx with tx_q := [], rx_q := [] }
  if ¬env.masterOk then
    let (_, c, p) ← spi_exit ctx p0
    return (-19, c, p)
  let ctx := { ctx with esp_spi_dev := env.newDevOk }
  if ¬env.newDevOk then
    let (_, c, p) ← spi_exit ctx p0
    return (-19, c, p)
  if env.setupRet ≠ 0 then
    let (_, c, p) ← spi_exit ctx p0
    return (env.setupRet, c, p)
  if env.gpioReqRet ≠ 0 then
    let (_, c, p) ← spi_exit ctx p0
    return (env.gpioReqRet, c, p)
  let p1 : Platform := { p0 with gpioHeld := true }
  if env.gpioDirRet ≠ 0 then
    let (_, c, p) ← spi_exit ctx p1
    return (env.gpioDirRet, c, p)
  if env.irqRet ≠ 0 then
    let (_, c, p) ← spi_exit ctx p1
    return (env.irqRet, c, p)
  let p2 : Platform := { p1 with irqHeld := true }
  if env.serialRet ≠ 0 then
    let (_, c, p) ← spi_exit ctx p2
    return (env.serialRet, c, p)
  if env.addCardRet ≠ 0 then
    let (_, c, p) ← spi_exit ctx p2
    return (env.addCardRet, c, p)
  if env.btRet ≠ 0 then
    let (_, c, p) ← spi_exit ctx p2
    return (env.btRet, c, p)
  return (0, ctx, p2)

/-- `esp_init_interface_layer` from `esp_spi.c`: a null adapter returns
`-EINVAL` at once; otherwise the context is zeroed, the adapter
back-pointer bound, and `spi_init` runs. -/
def esp_init_interface_layer (adapter : Option Adapter) (env : InitEnv)
    (ctx : SpiContext) (p : Platform) : Except Fault (Int × SpiContext × Platform) :=
  match adapter with
  | none => .ok (-22, ctx, p)
  | some a => spi_init env { zeroedContext with adapter := some a } p

/-- A received buffer declaring `offset = 4` and `len = 0xFFFC` (bytes
`FC FF` little-endian), padded with zeros to the full `SPI_BUF_SIZE`. -/
def c1_bad_buf : Buf := [4, 0, 252, 255] ++ List.replicate (SPI_BUF_SIZE - 4) 0

/-- C1: `process_rx_buf` does not reject every buffer whose header size plus
length exceeds `MAX_FRAME_SIZE`.  For the buffer declaring `len = 0xFFFC`,
`headerSize + len = 65536` exceeds `SPI_BUF_SIZE`, yet the `u16` addition
wraps to `0`, the check passes, and the buffer — trimmed to 0 bytes — is
enqueued on the receive queue with the adapter notified. -/
theorem c1_process_rx_buf_wrap_accepts :
    process_rx_buf [] (some c1_bad_buf) = ⟨0, [[]], true⟩ ∧
    le16 252 255 ≠ 0 ∧ headerSize + le16 252 255 > SPI_BUF_SIZE := by
  refine ⟨rfl, by decide, by decide⟩

/-- C3 counterexample: for a payload of size `SPI_BUF_SIZE` the padded total
`2052` exceeds `SPI_BUF_SIZE`, yet `write_packet` accepts it and returns 0
rather than `-EINVAL`: the size check runs before padding. -/
theorem c3_counterexample :
    (write_packet true (fun _ => 0) 2048 ⟨true, true⟩ []).ret = 0 ∧
    2048 + (4 - 2048 % 4) > SPI_BUF_SIZE := by
  refine ⟨rfl, by decide⟩

/-- A fully initialised context: work queue alive, device registered,
adapter bound with its BT device present, queues empty. -/
def c6_running_ctx : SpiContext := ⟨true, [], [], true, some ⟨true⟩⟩

/-- C6: teardown is not idempotent.  A completed `spi_exit` zeroes the
context, leaving `spi_context.adapter` null; the next `spi_exit` call then
dereferences `spi_context.adapter->hcidev`, a null-pointer fault instead of
a safe no-op. -/
theorem c6_second_exit_faults :
    spi_exit c6_running_ctx ⟨true, true⟩ =
      .ok (⟨true, true, true, true, true, true, []⟩, zeroedContext, ⟨false, true⟩) ∧
    spi_exit zeroedContext ⟨false, true⟩ = .error .nullDeref := ⟨rfl, rfl⟩

/-- A running context with one frame still in each queue. -/
def c7_ctx : SpiContext := ⟨true, [[9]], [[8, 8]], true, some ⟨false⟩⟩

/-- C7: `spi_exit` empties both queues only by zeroing the context; its
trace frees no buffer (`spi_exit` contains no `skb_queue_purge` or
`dev_kfree_skb`), so the frames still enqueued at teardown are leaked, not
freed as the claim states. -/
theorem c7_exit_leaks_queued_buffers :
    spi_exit c7_ctx ⟨true, true⟩ =
      .ok (⟨true, true, true, false, true, true, []⟩, zeroedContext, ⟨false, true⟩) ∧
    c7_ctx.tx_q = [[9]] ∧ zeroedContext.tx_q = [] ∧ zeroedContext.rx_q = [] :=
  ⟨rfl, rfl, rfl, rfl⟩

/-- An init environment in which every step succeeds until `esp_add_card`
fails with `-1`; in program order `request_irq` has already succeeded. -/
def c8_env : InitEnv := ⟨true, true, true, 0, 0, 0, 0, 0, -1, 0⟩

/-- C8: a null adapter yields `-EINVAL`; but when `esp_add_card` fails after
`request_irq` succeeded, the rollback returns the step's error and zeroes
the context while the platform still holds the IRQ registration —
`spi_exit` contains no `free_irq`, so the teardown of "everything acquired
so far" is not full. -/
theorem c8_failed_init_leaks_irq :
    esp_init_interface_layer none c8_env zeroedContext ⟨false, false⟩ =
      .ok (-22, zeroedContext, ⟨false, false⟩) ∧
    esp_init_interface_layer (some ⟨false⟩) c8_env zeroedContext ⟨false, false⟩ =
      .ok (-1, zeroedContext, ⟨false, true⟩) := ⟨rfl, rfl⟩

/-- C9: when `esp_alloc_skb(SPI_BUF_SIZE)` fails, `esp_spi_work` immediately
calls `skb_put(rx_skb, SPI_BUF_SIZE)` on the null result: the activation
faults instead of completing. -/
theorem c9_alloc_failure_faults :
    esp_spi_work ⟨false, 0, []⟩ ⟨[], []⟩ = .error .nullDeref := rfl

/-- Caller memory holding zeros everywhere. -/
def c10_buf_a : Nat → Nat := fun _ => 0

/-- Caller memory agreeing with `c10_buf_a` on the 3-byte payload but
differing at address 3, just past the payload. -/
def c10_buf_b : Nat → Nat := fun i => if i = 3 then 7 else 0

/-- C10: the `memcpy` in `write_packet` copies the padded length, not the
caller's `size`: two memories that agree on every one of the 3 payload bytes
still produce different enqueued frames, so the frame reads past the
payload the caller supplied. -/
theorem c10_copy_reads_past_payload :
    (∀ i, i < 3 → c10_buf_a i = c10_buf_b i) ∧
    write_packet true c10_buf_a 3 ⟨true, true⟩ [] ≠
      write_packet true c10_buf_b 3 ⟨true, true⟩ [] := by
  refine ⟨by decide, by decide⟩

theorem padded_mod_eq (size : Nat) (hmax : size ≤ SPI_BUF_SIZE) :
    (size + (4 - size % 4)) % 4294967296 = size + (4 - size % 4) := by
  have h : size ≤ 2048 := by simpa [SPI_BUF_SIZE] using hmax
  exact Nat.mod_eq_of_lt (by omega)

/-- C2: for every accepted payload of size `size` (valid pointers, size
within bounds, allocation succeeding), `write_packet` enqueues exactly one
frame whose wire length is `size + (4 - size % 4)`; in particular a
4-aligned `size` yields `size + 4`. -/
theorem c2_write_packet_padding (buf : Nat → Nat) (size : Nat) (env : WpEnv)
    (tx_q : List Buf) (hs : 0 < size) (hmax : size ≤ SPI_BUF_SIZE)
    (ha : env.allocOk = true) (hp : env.putOk = true) :
    ∃ f : Buf, write_packet true buf size env tx_q = ⟨0, tx_q ++ [f]⟩ ∧
      f.length = size + (4 - size % 4) ∧
      (size % 4 = 0 → f.length = size + 4) := by
  refine ⟨(List.range ((size + (4 - size % 4)) % 4294967296)).map buf, ?_, ?_, ?_⟩
  · simp [write_packet, ha, hp, hs.ne', Nat.not_lt.mpr hmax]
  · simp only [List.length_map, List.length_range]
    exact padded_mod_eq size hmax
  · intro h0
    have h : size ≤ 2048 := by simpa [SPI_BUF_SIZE] using hmax
    simp only [List.length_map, List.length_range, h0, Nat.sub_zero]
    omega

theorem c2_padding_witness :
    0 < 8 ∧ 8 ≤ SPI_BUF_SIZE ∧ (⟨true, true⟩ : WpEnv).allocOk = true ∧
    (⟨true, true⟩ : WpEnv).putOk = true ∧
    ∃ f : Buf, write_packet true (fun _ => 1) 8 ⟨true, true⟩ [] = ⟨0, [] ++ [f]⟩ ∧
      f.length = 8 + (4 - 8 % 4) ∧ (8 % 4 = 0 → f.length = 8 + 4) :=
  ⟨by decide, by decide, rfl, rfl,
   c2_write_packet_padding (fun _ => 1) 8 ⟨true, true⟩ [] (by decide) (by decide) rfl rfl⟩

/-- C3 amended: with valid pointers, `write_packet` returns `-EINVAL`
exactly when the *unpadded* payload size is zero or exceeds `SPI_BUF_SIZE`
— the size check precedes padding — and a nonzero payload whose padded size
fits is never rejected with `-EINVAL`. -/
theorem c3_einval_iff (buf : Nat → Nat) (size : Nat) (env : WpEnv) (tx_q : List Buf) :
    ((write_packet true buf size env tx_q).ret = -22 ↔
      size = 0 ∨ size > SPI_BUF_SIZE) ∧
    (0 < size → size + (4 - size % 4) ≤ SPI_BUF_SIZE →
      (write_packet true buf size env tx_q).ret ≠ -22) := by
  constructor
  · by_cases hz : size = 0
    · simp [write_packet, hz]
    · by_cases hb : size > SPI_BUF_SIZE
      · simp [write_packet, hz, hb]
      · simp only [write_packet, hz, hb]
        cases hA : env.allocOk <;> cases hP : env.putOk <;> simp [hA, hP, hz, hb]
  · intro hs hfit
    have hb : ¬size > SPI_BUF_SIZE := by
      have h4 : size % 4 < 4 := Nat.mod_lt _ (by omega)
      omega
    simp only [write_packet, hs.ne', hb]
    cases hA : env.allocOk <;> cases hP : env.putOk <;> simp [hA, hP, hs.ne', hb]

theorem c3_einval_witness :
    (((write_packet true (fun _ => 1) 12 ⟨true, true⟩ []).ret = -22 ↔
        12 = 0 ∨ 12 > SPI_BUF_SIZE) ∧
      (0 < 12 → 12 + (4 - 12 % 4) ≤ SPI_BUF_SIZE →
        (write_packet true (fun _ => 1) 12 ⟨true, true⟩ []).ret ≠ -22)) :=
  c3_einval_iff (fun _ => 1) 12 ⟨true, true⟩ []

/-- C4: when the receive-buffer allocation succeeds, one `esp_spi_work`
activation removes at most the head of the transmit queue, performs exactly
one exchange whose receive buffer is the zero-filled `SPI_BUF_SIZE` buffer,
logs exactly when the exchange reports failure, passes the received buffer
to `process_rx_buf` regardless of the exchange status, and frees the
dequeued transmit buffer exactly when one was dequeued — independent of the
exchange status and of the decode result. -/
theorem c4_work_shape (env : WorkEnv) (s : SpiQueues) (ha : env.allocOk = true) :
    ∃ tr s', esp_spi_work env s = .ok (tr, s') ∧
      tr.exchanges = [(s.tx_q.head?, List.replicate SPI_BUF_SIZE 0)] ∧
      s'.tx_q = s.tx_q.tail ∧
      tr.loggedFailure = (env.exchRet != 0) ∧
      tr.decodedInput =
        some ((env.exchData ++ List.replicate SPI_BUF_SIZE 0).take SPI_BUF_SIZE) ∧
      tr.txFreed = s.tx_q.head?.isSome := by
  refine ⟨⟨[(s.tx_q.head?, List.replicate SPI_BUF_SIZE 0)], env.exchRet != 0,
      some ((env.exchData ++ List.replicate SPI_BUF_SIZE 0).take SPI_BUF_SIZE),
      (process_rx_buf s.rx_q
        (some ((env.exchData ++ List.replicate SPI_BUF_SIZE 0).take SPI_BUF_SIZE))).ret != 0,
      s.tx_q.head?.isSome,
      (process_rx_buf s.rx_q
        (some ((env.exchData ++ List.replicate SPI_BUF_SIZE 0).take SPI_BUF_SIZE))).notified⟩,
    ⟨s.tx_q.tail,
      (process_rx_buf s.rx_q
        (some ((env.exchData ++ List.replicate SPI_BUF_SIZE 0).take SPI_BUF_SIZE))).rx_q⟩,
    ?_, rfl, rfl, rfl, rfl, rfl⟩
  simp [esp_spi_work, ha]

theorem c4_work_witness :
    (⟨true, -5, [6]⟩ : WorkEnv).allocOk = true ∧
    (∃ tr s', esp_spi_work ⟨true, -5, [6]⟩ ⟨[[1, 2, 3]], []⟩ = .ok (tr, s') ∧
      tr.exchanges = [((⟨[[1, 2, 3]], []⟩ : SpiQueues).tx_q.head?,
        List.replicate SPI_BUF_SIZE 0)] ∧
      s'.tx_q = (⟨[[1, 2, 3]], []⟩ : SpiQueues).tx_q.tail ∧
      tr.loggedFailure = ((⟨true, -5, [6]⟩ : WorkEnv).exchRet != 0) ∧
      tr.decodedInput = some (((⟨true, -5, [6]⟩ : WorkEnv).exchData ++
        List.replicate SPI_BUF_SIZE 0).take SPI_BUF_SIZE) ∧
      tr.txFreed = (⟨[[1, 2, 3]], []⟩ : SpiQueues).tx_q.head?.isSome) :=
  ⟨rfl, c4_work_shape ⟨true, -5, [6]⟩ ⟨[[1, 2, 3]], []⟩ rfl⟩

/-- C5: however many interrupt-handler invocations arrive, the single
work-queue slot holds at most one pending activation, an activation already
pending is never lost, and the handler performs no bus operation. -/
theorem c5_coalescing (wqAlive : Bool) (n : Nat) (p : Bool) :
    pendingCount (handlerIter wqAlive n p).1 ≤ 1 ∧
    (p = true → (handlerIter wqAlive n p).1 = true) ∧
    (handlerIter wqAlive n p).2 = 0 := by
  induction n generalizing p with
  | zero =>
    refine ⟨?_, fun h => h, rfl⟩
    cases p <;> simp [handlerIter, pendingCount]
  | succ k ih =>
    have hstep : (spi_interrupt_handler wqAlive p).2 = 0 := by
      cases wqAlive <;> simp [spi_interrupt_handler]
    have hkeep : p = true → (spi_interrupt_handler wqAlive p).1 = true := by
      intro hp
      cases wqAlive <;> simp [spi_interrupt_handler, queue_work, hp]
    obtain ⟨h1, h2, h3⟩ := ih (spi_interrupt_handler wqAlive p).1
    refine ⟨?_, ?_, ?_⟩
    · simpa [handlerIter] using h1
    · intro hp
      simpa [handlerIter] using h2 (hkeep hp)
    · simp [handlerIter, hstep, h3]

theorem c5_coalescing_witness :
    pendingCount (handlerIter true 3 true).1 ≤ 1 ∧
    (true = true → (handlerIter true 3 true).1 = true) ∧
    (handlerIter true 3 true).2 = 0 :=
  c5_coalescing true 3 true
